import Mathlib

/-!
A verification development for `generate_master_index.py`, a single-file
batch tool that enumerates a GitHub user's repositories, recursively lists
the files of each repository, looks up each file's last-commit timestamp,
and renders a single static HTML index sorted by recency.

The source is shallowly embedded:

* The remote REST API is a structure of response functions (`Api`).  A
  response is either a raised exception (the HTTP client and JSON parsing
  can raise), or a status code together with the decoded JSON body.
* Console prints are modelled as an explicit list of strings returned next
  to each function's value.
* Python's unbounded loops and unbounded recursion are given explicit fuel;
  running out of fuel models nontermination and is reported as a separate
  outcome (for the page loop) or as an empty result (for the directory
  recursion, where every claim is quantified over all fuels).
* `datetime` instants are modelled as integer POSIX seconds; the real-time
  clock is a single parameter `now`.  `str(float)` of a whole-second
  timestamp is modelled as the integer digits followed by ".0".
* Python `//` is `Int.fdiv`; `str(n)` of integers is `natRepr` / `intRepr`
  below, a base-10 digit expansion.
-/

namespace MasterIndex

/-- The decimal digit character for a value below ten. -/
def digitChar (d : Nat) : Char := Char.ofNat (48 + d)

/-- Accumulator loop producing the base-10 digits of a natural number,
most significant first; models CPython's integer-to-string conversion.
The first argument is structural fuel (one unit per digit suffices). -/
def natToDigits : Nat → Nat → List Char → List Char
  | 0, _, acc => acc
  | fuel + 1, n, acc =>
    let d := digitChar (n % 10)
    let q := n / 10
    if q = 0 then d :: acc else natToDigits fuel q (d :: acc)

/-- Models Python `str(n)` for a non-negative integer. -/
def natRepr (n : Nat) : String := String.mk (natToDigits (n + 1) n [])

/-- Models Python `str(i)` for an integer. -/
def intRepr (i : Int) : String :=
  if i < 0 then "-" ++ natRepr i.natAbs else natRepr i.toNat

/-- Translation of `format_time_since` (source lines 6-20).  The Python
function receives a `timedelta` and takes `int(delta.total_seconds())`;
the embedding receives that integer directly.  Python `//` on an `int`
is floor division, `Int.fdiv`. -/
def format_time_since (seconds : Int) : String :=
  if seconds < 60 then "Just now"
  else if seconds < 3600 then
    let minutes := seconds.fdiv 60
    intRepr minutes ++ " minute" ++ (if 1 < minutes then "s" else "") ++ " ago"
  else if seconds < 86400 then
    let hours := seconds.fdiv 3600
    intRepr hours ++ " hour" ++ (if 1 < hours then "s" else "") ++ " ago"
  else
    let days := seconds.fdiv 86400
    intRepr days ++ " day" ++ (if 1 < days then "s" else "") ++ " ago"

/-- A repository descriptor as used by the script: of the JSON object only
the `name` field is ever read (source line 107). -/
structure Repo where
  name : String
deriving DecidableEq

/-- A directory entry returned by the contents endpoint; the fields the
script reads: `type`, `name`, `path`, `html_url`, and optional `size`
(read with `.get('size', 0)`, source line 121). -/
structure Item where
  type : String
  name : String
  path : String
  html_url : String
  size : Option Nat
deriving DecidableEq

/-- A commit as used by the script: only the committer date (parsed into an
instant; modelled as POSIX seconds). -/
structure Commit where
  date : Int
deriving DecidableEq

/-- Result of one `requests.get` + `.json()` round against the repository
list endpoint: either a raised exception, or a status code and decoded
body. -/
inductive ReposResult where
  | exn (msg : String)
  | resp (status : Nat) (body : List Repo)
deriving DecidableEq

/-- Result of one request against the directory-contents endpoint. -/
inductive ContentsResult where
  | exn (msg : String)
  | resp (status : Nat) (items : List Item)
deriving DecidableEq

/-- Result of one request against the commit-list endpoint. -/
inductive CommitsResult where
  | exn (msg : String)
  | resp (status : Nat) (commits : List Commit)
deriving DecidableEq

/-- The remote API.  The repository list endpoint is keyed by the full
request URL (the script varies the page number inside it); the contents and
commits endpoints are keyed by the path components the script interpolates
into their URLs: username, repository name, and path. -/
structure Api where
  repos : String → ReposResult
  contents : String → String → String → ContentsResult
  commits : String → String → String → CommitsResult

/-- The URL built at source line 32 for one page of the repository list. -/
def reposUrl (username : String) (page per_page : Nat) : String :=
  "https://api.github.com/users/" ++ username ++ "/repos?page=" ++ natRepr page ++
    "&per_page=" ++ natRepr per_page ++ "&sort=updated"

/-- Outcome of running a fragment of the script: a value, a propagated
Python exception, or fuel exhaustion (modelling nontermination of the
unbounded `while True` loop). -/
inductive Outcome (α : Type) where
  | ok (value : α)
  | raised (msg : String)
  | fuelOut
deriving DecidableEq

/-- The `while True` page loop of `get_github_repos` (source lines 31-44).
Returns the accumulated repository list, the list of URLs requested, and
the console log.  Exceptions from `requests.get`/`.json()` are not caught
in the source and propagate (`Outcome.raised`). -/
def get_github_repos_go (api : String → ReposResult) (username : String) :
    Nat → Nat → List Repo → List String → List String →
      Outcome (List Repo × List String × List String)
  | 0, _, _, _, _ => .fuelOut
  | fuel + 1, page, acc, urls, log =>
    let per_page := 100
    let url := reposUrl username page per_page
    match api url with
    | .exn msg => .raised msg
    | .resp status body =>
      if status ≠ 200 then
        .ok (acc, urls ++ [url], log ++ ["Error fetching repos: " ++ natRepr status])
      else if body = [] then
        .ok (acc, urls ++ [url], log)
      else
        get_github_repos_go api username fuel (page + 1) (acc ++ body) (urls ++ [url]) log

/-- Translation of `get_github_repos` (source lines 22-46). -/
def get_github_repos (api : String → ReposResult) (username : String) (fuel : Nat) :
    Outcome (List Repo × List String × List String) :=
  get_github_repos_go api username fuel 1 [] [] []

/-- Translation of `get_repo_files` (source lines 48-73).  Returns the file
list and the console log.  The request and JSON decoding sit inside
`try`: an exception yields the empty list so far (the accumulator is empty
at that point) plus an error print; a non-success status returns the empty
list silently.  The `for item in items` loop (source lines 64-69) appends
plain files, recurses into directories, and skips anything else; it is
rendered as a right fold so that the recursion is structural on the fuel
that bounds the recursion depth (the source has none). -/
def get_repo_files (c : String → String → String → ContentsResult)
    (username repo_name : String) : Nat → String → List Item × List String
  | 0, _ => ([], [])
  | fuel + 1, path =>
    match c username repo_name path with
    | .exn msg =>
      ([], ["Error fetching files from " ++ repo_name ++ "/" ++ path ++ ": " ++ msg])
    | .resp status items =>
      if status ≠ 200 then ([], [])
      else
        items.foldr
          (fun item tail =>
            if item.type = "file" then (item :: tail.1, tail.2)
            else if item.type = "dir" then
              let sub := get_repo_files c username repo_name fuel item.path
              (sub.1 ++ tail.1, sub.2 ++ tail.2)
            else tail)
          ([], [])

/-- Translation of `get_file_last_commit` (source lines 75-92): the commit
date of the first returned commit on success with a nonempty list, `none`
otherwise; exceptions (request, JSON decoding, date parsing) are caught and
printed. -/
def get_file_last_commit (c : String → String → String → CommitsResult)
    (username repo_name file_path : String) : Option Int × List String :=
  match c username repo_name file_path with
  | .exn msg => (none, ["Error fetching commit for " ++ file_path ++ ": " ++ msg])
  | .resp status commits =>
    if status = 200 then
      match commits with
      | [] => (none, [])
      | c0 :: _ => (some c0.date, [])
    else (none, [])

/-- The aggregated per-file record built at source lines 116-123. -/
structure FileInfo where
  repo : String
  name : String
  path : String
  url : String
  size : Nat
  updated_at : Int
deriving DecidableEq

/-- Construction of one file record (source lines 112-125): the last-commit
time is looked up per file and `commit_time or datetime.now(timezone.utc)`
substitutes the current instant when the lookup returned `None`. -/
def mkRecord (c : String → String → String → CommitsResult)
    (username repo_name : String) (now : Int) (f : Item) : FileInfo :=
  { repo := repo_name
    name := f.name
    path := f.path
    url := f.html_url
    size := f.size.getD 0
    updated_at := ((get_file_last_commit c username repo_name f.path).1).getD now }

/-- The body of the per-repository loop (source lines 106-125): list the
repository's files from the root path and build one record per file. -/
def collectRepo (api : Api) (username : String) (now : Int) (fuel : Nat)
    (repo : Repo) : List FileInfo :=
  ((get_repo_files api.contents username repo.name fuel "").1).map
    (mkRecord api.commits username repo.name now)

/-- The whole collection loop: records of all repositories concatenated in
repository order (the Python loop appends them sequentially). -/
def collectFiles (api : Api) (username : String) (now : Int) (fuel : Nat)
    (repos : List Repo) : List FileInfo :=
  (repos.map (collectRepo api username now fuel)).flatten

/-- Insertion step of the stable descending sort by `updated_at`:
the inserted record goes after every already-placed record with a strictly
larger timestamp and before the first one with an equal or smaller
timestamp, so earlier records win ties. -/
def insertFile (r : FileInfo) : List FileInfo → List FileInfo
  | [] => [r]
  | y :: ys => if r.updated_at < y.updated_at then y :: insertFile r ys else r :: y :: ys

/-- Model of `all_files.sort(key=lambda x: x['updated_at'], reverse=True)`
(source line 128).  CPython's sort is the unique stable sort; with
`reverse=True` it orders by strictly greater timestamp and keeps the
original relative order of equal timestamps, which is exactly what this
insertion sort computes. -/
def sortFilesDesc : List FileInfo → List FileInfo
  | [] => []
  | x :: xs => insertFile x (sortFilesDesc xs)

/-- A contents endpoint that always answers 404 with an empty body. -/
def contents404 : String → String → String → ContentsResult := fun _ _ _ => .resp 404 []

/-- A contents endpoint that always raises. -/
def contentsBoom : String → String → String → ContentsResult := fun _ _ _ => .exn "boom"

/-- A commits endpoint with one commit for one path and failures elsewhere. -/
def commitsEx : String → String → String → CommitsResult := fun _ _ p =>
  if p = "a.txt" then .resp 200 [⟨1700000000⟩] else .resp 500 []

/-- A contents endpoint with a nested directory, used as concrete input. -/
def contentsEx : String → String → String → ContentsResult := fun _ _ p =>
  if p = "" then
    .resp 200 [⟨"file", "a.txt", "a.txt", "u1", some 5⟩, ⟨"dir", "d", "d", "u2", none⟩]
  else if p = "d" then .resp 200 [⟨"file", "b.txt", "d/b.txt", "u3", some 1⟩]
  else .resp 404 []

/-- A repository endpoint with two nonempty pages and a 403 on page 3. -/
def reposApiEx : String → ReposResult := fun url =>
  if url = reposUrl "sportomax1" 1 100 then .resp 200 [⟨"r1"⟩, ⟨"r2"⟩]
  else if url = reposUrl "sportomax1" 2 100 then .resp 200 [⟨"r3"⟩]
  else .resp 403 []


/-- Index of the last occurrence of a character in a list, if any; models
Python `str.rfind` (restricted to what `os.path.splitext` needs). -/
def rfind (ch : Char) : List Char → Option Nat
  | [] => none
  | c :: cs =>
    match rfind ch cs with
    | some i => some (i + 1)
    | none => if c = ch then some 0 else none

/-- The extension part of `os.path.splitext` (posixpath semantics): the
suffix from the last dot, provided that dot comes after the last slash and
the basename has at least one non-dot character before it; otherwise
empty. -/
def splitext_ext (p : List Char) : List Char :=
  match rfind '.' p with
  | none => []
  | some di =>
    let sep : Int := match rfind '/' p with | none => -1 | some si => si
    if sep < (di : Int) then
      let start := (sep + 1).toNat
      if (List.range' start (di - start)).any (fun j => p.getD j '.' != '.') then
        p.drop di
      else []
    else []

/-- Per-character ASCII lowering; models Python `str.lower()` on the ASCII
range (the script only ever lowercases names and paths for data
attributes). -/
def lowerS (s : String) : String := String.mk (s.data.map Char.toLower)

/-- `os.path.splitext(name)[1].lower()` (source line 355). -/
def file_ext (name : String) : String :=
  String.mk ((splitext_ext name.data).map Char.toLower)

/-- Models `str(file['updated_at'].timestamp())` (source line 360): the
POSIX timestamp of a whole-second instant prints as the integer digits
followed by ".0". -/
def tsRender (t : Int) : String := intRepr t ++ ".0"

/-- Rounding of `n10 / 1024` to the nearest integer, ties to even; the
arithmetic core of CPython's `f"{x:.1f}"` applied to the exactly
representable double `size / 1024`. -/
def roundTenths (n10 : Nat) : Nat :=
  let q := n10 / 1024
  let r := n10 % 1024
  if 512 < r then q + 1
  else if r < 512 then q
  else if q % 2 = 0 then q else q + 1

/-- The size string of source lines 356-357:
`size_kb = file['size'] / 1024 if file['size'] > 0 else 0` and
`size_str = f"{size_kb:.1f} KB" if size_kb > 0 else "0 KB"`.
For a positive integer size the double `size / 1024` is positive, so the
two conditions collapse to `0 < size`; the `.1f` formatting rounds to one
decimal, ties to even. -/
def size_str (size : Nat) : String :=
  if 0 < size then
    let tenths := roundTenths (size * 10)
    natRepr (tenths / 10) ++ "." ++ natRepr (tenths % 10) ++ " KB"
  else "0 KB"

/-- One `<li>` entry of the rendered list (the f-string at source lines
359-371), a literal template with the record's fields interpolated. -/
def renderItem (now : Int) (r : FileInfo) : String :=
  "\n            <li class=\"file-item\" data-ext=\"" ++ file_ext r.name
  ++ "\" data-repo=\"" ++ r.repo
  ++ "\" data-name=\"" ++ lowerS r.name
  ++ "\" data-path=\"" ++ lowerS r.path
  ++ "\" data-updated=\"" ++ tsRender r.updated_at
  ++ "\" data-size=\"" ++ natRepr r.size
  ++ "\">\n                <div class=\"file-header\">\n                    <a href=\"" ++ r.url
  ++ "\" class=\"file-name\" target=\"_blank\">" ++ r.name
  ++ "</a>\n                    <span class=\"repo-badge\">" ++ r.repo
  ++ "</span>\n                </div>\n                <div class=\"file-path\">" ++ r.path
  ++ "</div>\n                <div class=\"file-meta\">\n                    <span class=\"time-ago\">⏱️ " ++ format_time_since (now - r.updated_at)
  ++ "</span>\n                    <span class=\"file-size\">📦 " ++ size_str r.size
  ++ "</span>\n                </div>\n            </li>\n"

/-- The `for file in all_files` rendering loop (source lines 353-371): the
item strings concatenated in list order (string concatenation is
associative, so the Python left-to-right `+=` accumulation builds the same
string). -/
def itemsHtml (now : Int) : List FileInfo → String
  | [] => ""
  | r :: rest => renderItem now r ++ itemsHtml now rest

/-- Literal fragment of the output template before the first interpolation of username (source lines 135 onward). -/
def hs1 : String := "<!DOCTYPE html>\n<html lang=\"en\">\n<head>\n    <meta charset=\"UTF-8\">\n    <meta name=\"viewport\" content=\"width=device-width, initial-scale=1.0\">\n    <title>Master Index - All Repositories ("

/-- Template between the two username interpolations. -/
def hs2 : String := ")</title>\n    <style>\n        body \x7b \n            font-family: -apple-system, BlinkMacSystemFont, \"Segoe UI\", Roboto, Helvetica, Arial, sans-serif;\n            margin: 20px; \n            background-color: #fdfdfd;\n            color: #333;\n        \x7d\n        .container \x7b max-width: 1200px; margin: auto; \x7d\n        h1 \x7b \n            border-bottom: 2px solid #eee; \n            padding-bottom: 10px; \n        \x7d\n        \n        .search-input \x7b\n            width: 100%;\n            padding: 10px;\n            margin-bottom: 20px;\n            border: 1px solid #ccc;\n            border-radius: 6px;\n            box-sizing: border-box;\n            font-size: 16px;\n        \x7d\n        \n        .filter-controls \x7b\n            margin-bottom: 20px;\n            display: flex;\n            flex-wrap: wrap;\n            gap: 8px;\n        \x7d\n        \n        .filter-btn \x7b\n            padding: 8px 16px;\n            font-size: 13px;\n            border: 2px solid #ddd;\n            background-color: #fff;\n            border-radius: 20px;\n            cursor: pointer;\n            transition: all 0.2s;\n            font-weight: 500;\n        \x7d\n        \n        .filter-btn:hover \x7b\n            background-color: #f0f0f0;\n        \x7d\n        \n        .filter-btn.active \x7b\n            background-color: #007bff;\n            color: #fff;\n            border-color: #007bff;\n        \x7d\n        \n        .stats \x7b\n            background: #f8f9fa;\n            border-radius: 8px;\n            padding: 15px;\n            margin-bottom: 20px;\n            display: flex;\n            gap: 20px;\n            flex-wrap: wrap;\n        \x7d\n        \n        .stat \x7b\n            text-align: center;\n        \x7d\n        \n        .stat-value \x7b\n            font-size: 24px;\n            font-weight: bold;\n            color: #007bff;\n        \x7d\n        \n        .stat-label \x7b\n            font-size: 12px;\n            color: #666;\n        \x7d\n        \n        .file-list \x7b\n            list-style: none;\n            padding: 0;\n        \x7d\n        \n        .file-item \x7b\n            padding: 15px;\n            border: 1px solid #e0e0e0;\n            border-radius: 8px;\n            margin-bottom: 10px;\n            background-color: #fff;\n            transition: box-shadow 0.2s;\n        \x7d\n        \n        .file-item:hover \x7b\n            box-shadow: 0 4px 12px rgba(0, 0, 0, 0.1);\n        \x7d\n        \n        .file-header \x7b\n            display: flex;\n            justify-content: space-between;\n            align-items: flex-start;\n            margin-bottom: 8px;\n        \x7d\n        \n        .file-name \x7b\n            font-weight: 600;\n            font-size: 16px;\n            color: #0366d6;\n            text-decoration: none;\n        \x7d\n        \n        .file-name:hover \x7b\n            text-decoration: underline;\n        \x7d\n        \n        .repo-badge \x7b\n            background: #e1e4e8;\n            padding: 3px 8px;\n            border-radius: 12px;\n            font-size: 11px;\n            font-weight: 600;\n            color: #586069;\n        \x7d\n        \n        .file-meta \x7b\n            display: flex;\n            gap: 15px;\n            font-size: 13px;\n            color: #666;\n        \x7d\n        \n        .file-path \x7b\n            color: #999;\n            font-size: 12px;\n            font-family: monospace;\n        \x7d\n        \n        .time-ago \x7b\n            color: #28a745;\n            font-weight: 500;\n        \x7d\n        \n        .file-size \x7b\n            color: #6f42c1;\n        \x7d\n        \n        .sort-controls \x7b\n            margin-bottom: 20px;\n            display: flex;\n            gap: 10px;\n            align-items: center;\n        \x7d\n        \n        .sort-btn \x7b\n            padding: 8px 16px;\n            border: 1px solid #ddd;\n            background: #fff;\n            border-radius: 6px;\n            cursor: pointer;\n            font-size: 14px;\n        \x7d\n        \n        .sort-btn.active \x7b\n            background: #007bff;\n            color: #fff;\n            border-color: #007bff;\n        \x7d\n    </style>\n</head>\n<body>\n    <div class=\"container\">\n        <h1>🗂️ Master Index - All Repositories</h1>\n        <p style=\"color: #666; margin-bottom: 20px;\">\n            Showing all files from <strong>"

/-- Template after the second username up to the repository-count stat value. -/
def hs3p : String := "</strong>\x27s GitHub repositories\n        </p>\n        \n        <div class=\"stats\">\n            <div class=\"stat\">\n                "

/-- The stat-value opening tag of the stats boxes. -/
def statv : String := "<div class=\"stat-value\">"

/-- Closing div tag. -/
def dclose : String := "</div>"

/-- Template between the repository count and the total-files stat value. -/
def hs4m : String := "\n                <div class=\"stat-label\">Repositories</div>\n            </div>\n            <div class=\"stat\">\n                "

/-- Template between the total-files count and the visible-files count. -/
def hs5m : String := "\n                <div class=\"stat-label\">Total Files</div>\n            </div>\n            <div class=\"stat\">\n                <div class=\"stat-value\" id=\"visibleCount\">"

/-- Template after the visible-files count up to the opening of the file list. -/
def hs6 : String := "</div>\n                <div class=\"stat-label\">Visible Files</div>\n            </div>\n        </div>\n        \n        <input \n            type=\"text\" \n            id=\"searchInput\" \n            class=\"search-input\" \n            placeholder=\"🔍 Search files by name, path, or repository...\" \n            onkeyup=\"filterFiles()\"\n        >\n        \n        <div class=\"filter-controls\" id=\"filterButtons\">\n            <button class=\"filter-btn active\" onclick=\"setFilter(\x27all\x27)\">All Files</button>\n        </div>\n        \n        <div class=\"sort-controls\">\n            <span style=\"font-weight: 600;\">Sort by:</span>\n            <button class=\"sort-btn active\" onclick=\"sortFiles(\x27updated\x27)\">Last Updated</button>\n            <button class=\"sort-btn\" onclick=\"sortFiles(\x27name\x27)\">Name</button>\n            <button class=\"sort-btn\" onclick=\"sortFiles(\x27repo\x27)\">Repository</button>\n            <button class=\"sort-btn\" onclick=\"sortFiles(\x27size\x27)\">Size</button>\n        </div>\n        \n        <ul class=\"file-list\" id=\"fileList\">\n"

/-- The closing part of the document: list close, client-side script, body close (source lines 373 onward; a plain string in the source, braces literal). -/
def htmlFoot : String := "\n        </ul>\n    </div>\n    \n    <script>\n        let currentFilter = \x27all\x27;\n        let currentSort = \x27updated\x27;\n        \n        function setFilter(ext) \x7b\n            currentFilter = ext;\n            \n            // Update button states\n            document.querySelectorAll(\x27.filter-btn\x27).forEach(btn => \x7b\n                btn.classList.remove(\x27active\x27);\n            \x7d);\n            event.target.classList.add(\x27active\x27);\n            \n            filterFiles();\n        \x7d\n        \n        function filterFiles() \x7b\n            const searchTerm = document.getElementById(\x27searchInput\x27).value.toLowerCase();\n            const items = document.querySelectorAll(\x27.file-item\x27);\n            let visibleCount = 0;\n            \n            items.forEach(item => \x7b\n                const ext = item.dataset.ext;\n                const repo = item.dataset.repo.toLowerCase();\n                const name = item.dataset.name;\n                const path = item.dataset.path;\n                \n                const matchesFilter = currentFilter === \x27all\x27 || ext === currentFilter;\n                const matchesSearch = name.includes(searchTerm) || path.includes(searchTerm) || repo.includes(searchTerm);\n                \n                if (matchesFilter && matchesSearch) \x7b\n                    item.style.display = \x27block\x27;\n                    visibleCount++;\n                \x7d else \x7b\n                    item.style.display = \x27none\x27;\n                \x7d\n            \x7d);\n            \n            document.getElementById(\x27visibleCount\x27).textContent = visibleCount;\n        \x7d\n        \n        function sortFiles(sortBy) \x7b\n            currentSort = sortBy;\n            \n            // Update button states\n            document.querySelectorAll(\x27.sort-btn\x27).forEach(btn => \x7b\n                btn.classList.remove(\x27active\x27);\n            \x7d);\n            event.target.classList.add(\x27active\x27);\n            \n            const list = document.getElementById(\x27fileList\x27);\n            const items = Array.from(list.querySelectorAll(\x27.file-item\x27));\n            \n            items.sort((a, b) => \x7b\n                if (sortBy === \x27updated\x27) \x7b\n                    return parseFloat(b.dataset.updated) - parseFloat(a.dataset.updated);\n                \x7d else if (sortBy === \x27name\x27) \x7b\n                    return a.dataset.name.localeCompare(b.dataset.name);\n                \x7d else if (sortBy === \x27repo\x27) \x7b\n                    return a.dataset.repo.localeCompare(b.dataset.repo);\n                \x7d else if (sortBy === \x27size\x27) \x7b\n                    return parseInt(b.dataset.size) - parseInt(a.dataset.size);\n                \x7d\n            \x7d);\n            \n            items.forEach(item => list.appendChild(item));\n        \x7d\n        \n        // Build filter buttons dynamically\n        const extensions = new Set();\n        document.querySelectorAll(\x27.file-item\x27).forEach(item => \x7b\n            const ext = item.dataset.ext;\n            if (ext) extensions.add(ext);\n        \x7d);\n        \n        const filterContainer = document.getElementById(\x27filterButtons\x27);\n        const sortedExts = Array.from(extensions).sort();\n        sortedExts.forEach(ext => \x7b\n            const btn = document.createElement(\x27button\x27);\n            btn.className = \x27filter-btn\x27;\n            btn.textContent = ext || \x27no ext\x27;\n            btn.onclick = () => setFilter(ext);\n            filterContainer.appendChild(btn);\n        \x7d);\n    </script>\n</body>\n</html>\n"

/-- The document part before the file list (the f-string at source lines
135-350), with the username and the two counts interpolated; the literal is
split at the interpolation points and around the stat-value markup. -/
def htmlHead (username : String) (nRepos nFiles : Nat) : String :=
  hs1 ++ username ++ hs2 ++ username ++ hs3p ++ statv ++ natRepr nRepos ++ dclose
    ++ hs4m ++ statv ++ natRepr nFiles ++ dclose ++ hs5m ++ natRepr nFiles ++ hs6

/-- The written artifact: target path and full document text.  The actual
file write (source lines 467-468) is modelled by returning this value. -/
structure Output where
  path : String
  content : String
deriving DecidableEq

/-- Translation of `generate_master_html_index` (source lines 94-472):
enumerate repositories (an uncaught exception there propagates), collect
all file records, sort them in place by timestamp descending, and write the
document assembled from header, one entry per record, and footer.  The
header counts use the lengths of the repository list and of the (sorted in
place, hence same length) record list.  Progress prints are not modelled. -/
def generate_master_html_index (api : Api) (now : Int) (fuel : Nat)
    (username output_file : String) : Outcome Output :=
  match get_github_repos api.repos username fuel with
  | .raised m => .raised m
  | .fuelOut => .fuelOut
  | .ok (repos, _, _) =>
    let all_files := sortFilesDesc (collectFiles api username now fuel repos)
    .ok { path := output_file
          content := htmlHead username repos.length all_files.length
            ++ itemsHtml now all_files ++ htmlFoot }


/-- An API whose repository-list request raises. -/
def apiBoom : Api :=
  ⟨fun _ => .exn "boom", fun _ _ _ => .exn "x", fun _ _ _ => .exn "x"⟩

/-- An API with no repositories and failing other endpoints. -/
def apiEmpty : Api :=
  ⟨fun _ => .resp 200 [], fun _ _ _ => .resp 404 [], fun _ _ _ => .resp 404 []⟩


/-- The thirteen characters of the marker before its closing quote. -/
def m13 : List Char := ['d', 'a', 't', 'a', '-', 'u', 'p', 'd', 'a', 't', 'e', 'd', '=']

/-- The marker that introduces the `updated` data attribute value in a
rendered entry: `data-updated="`. -/
def marker : List Char := m13 ++ ['"']

/-- Does the string start with the marker? -/
def isMarkerAt (s : List Char) : Bool := s.take 14 == marker

/-- Reads off, left to right, every maximal-quote-delimited value directly
preceded by the marker `data-updated="`: the observable "updated" data
attributes of a rendered document. -/
def extractUpd : List Char → List (List Char)
  | [] => []
  | c :: cs =>
    if isMarkerAt (c :: cs) then
      ((c :: cs).drop 14).takeWhile (fun ch => ch != '"') ::
        extractUpd ((((c :: cs).drop 14).dropWhile (fun ch => ch != '"')).drop 1)
    else extractUpd cs
termination_by s => s.length
decreasing_by
  · calc ((((c :: cs).drop 14).dropWhile (fun ch => ch != '"')).drop 1).length
        ≤ (((c :: cs).drop 14).dropWhile (fun ch => ch != '"')).length := by
          simp
      _ ≤ ((c :: cs).drop 14).length := (List.dropWhile_sublist _).length_le
      _ ≤ cs.length := by simp
      _ < (c :: cs).length := by simp
  · simp

/-- Does the string contain the thirteen-character marker core? -/
def hasM13 (v : List Char) : Bool :=
  (List.range v.length).any (fun i => (v.drop i).take 13 == m13)

/-- A value is clean when it contains neither a double quote nor the
marker core; rendered inside a quoted attribute it then cannot fabricate a
`data-updated="` occurrence. -/
def cleanVal (v : List Char) : Prop := ('"' ∉ v) ∧ hasM13 v = false

/-- A template chunk is safe when none of its suffixes is consistent with
a prefix of the marker: no marker occurrence can start inside it, whatever
follows it. -/
def chunkSafe (t : List Char) : Bool :=
  (List.range t.length).all
    (fun i => marker.take (min 14 (t.length - i)) != (t.drop i).take 14)

/-- No occurrence of the marker starts within the first `a.length`
positions of `a ++ b`. -/
def NoOccBefore (a b : List Char) : Prop :=
  ∀ i, i < a.length → isMarkerAt ((a ++ b).drop i) = false

/-- Benign record fields: every string interpolated into the entry template
is quote-free, and the ones rendered inside quoted attributes are also free
of the marker core.  Without this the (unescaped) HTML itself is malformed
and a field can forge an `updated` attribute. -/
def Benign (r : FileInfo) : Prop :=
  cleanVal (file_ext r.name).data ∧ cleanVal r.repo.data ∧
  cleanVal (lowerS r.name).data ∧ cleanVal (lowerS r.path).data ∧
  cleanVal r.url.data ∧ ('"' ∉ r.name.data) ∧ ('"' ∉ r.path.data)

instance (r : FileInfo) : Decidable (Benign r) := by
  unfold Benign cleanVal
  infer_instance


/-- Three concrete records with timestamps now-1, now-3, now-2 (for
now = 1000), in that input order. -/
def exRecords : List FileInfo :=
  [⟨"r1", "a.txt", "a.txt", "u1", 1, 999⟩,
   ⟨"r2", "b.txt", "b.txt", "u2", 2, 997⟩,
   ⟨"r3", "c.txt", "c.txt", "u3", 3, 998⟩]

end MasterIndex

namespace MasterIndex

/-- C2: for durations of at least a day the formatter returns the
day bucket with correct pluralization. -/
theorem c2_format_days (s : Int) (h : 86400 ≤ s) :
    format_time_since s =
      intRepr (s.fdiv 86400) ++ " day" ++ (if 1 < s.fdiv 86400 then "s" else "") ++ " ago" ∧
    (s.fdiv 86400 = 1 → format_time_since s = "1 day ago") ∧
    (1 < s.fdiv 86400 → format_time_since s = intRepr (s.fdiv 86400) ++ " days ago") := by
  have h1 : ¬ s < 60 := by omega
  have h2 : ¬ s < 3600 := by omega
  have h3 : ¬ s < 86400 := by omega
  refine ⟨by simp [format_time_since, h1, h2, h3], ?_, ?_⟩
  · intro hN
    simp only [format_time_since, if_neg h1, if_neg h2, if_neg h3, hN]
    decide
  · intro hN
    simp only [format_time_since, if_neg h1, if_neg h2, if_neg h3, if_pos hN]
    rw [String.append_assoc, String.append_assoc]
    rw [show (" day" ++ ("s" ++ " ago") : String) = " days ago" from by decide]

/-- Closed instance of `c2_format_days` at two days. -/
theorem c2_format_days_witness : format_time_since 172800 = "2 days ago" := by
  have h := (c2_format_days 172800 (by decide)).2.2 (by decide)
  rw [h]; decide

/-- C3: exactly one hour is classified as hours, exactly one minute as
minutes. -/
theorem c3_boundaries :
    format_time_since 3600 = "1 hour ago" ∧ format_time_since 60 = "1 minute ago" := by
  constructor <;> decide

end MasterIndex

namespace MasterIndex


/-- C4 counterexample: when the directory-contents request returns a
non-success status, `get_repo_files` returns no files AND an empty console
log — the failure is not logged, contradicting the claim that every request
failure for a path is logged to the console. -/
theorem c4_counterexample :
    get_repo_files contents404 "sportomax1" "somerepo" 5 "" = ([], []) := by decide

/-- C4 (amended): when the directory-contents request for a path fails, the
call returns with no files from that path's subtree and no exception
propagates (the embedding is total); a raised exception is caught and
logged, while a non-success HTTP status is treated as an empty result
silently, with no log entry. -/
theorem c4_failure_no_files (c : String → String → String → ContentsResult)
    (username repo_name path : String) (fuel : Nat) :
    (∀ msg, c username repo_name path = .exn msg →
      get_repo_files c username repo_name (fuel + 1) path =
        ([], ["Error fetching files from " ++ repo_name ++ "/" ++ path ++ ": " ++ msg])) ∧
    (∀ status items, c username repo_name path = .resp status items → status ≠ 200 →
      get_repo_files c username repo_name (fuel + 1) path = ([], [])) := by
  constructor
  · intro msg hc
    simp [get_repo_files, hc]
  · intro status items hc hs
    simp [get_repo_files, hc, hs]


/-- Closed instance of `c4_failure_no_files`: a raised exception yields no
files and one console line. -/
theorem c4_failure_no_files_witness :
    get_repo_files contentsBoom "sportomax1" "somerepo" 1 "" =
      ([], ["Error fetching files from somerepo/: boom"]) := by
  have h := (c4_failure_no_files contentsBoom "sportomax1" "somerepo" "" 0).1 "boom" rfl
  rw [h]; decide

/-- C5: the last-commit lookup returns the first (most recent) commit's
timestamp exactly when the request succeeds with status 200 and a nonempty
commit list, and `none` on a non-success status, an empty list, or a raised
exception; the record builder substitutes `now` when the lookup is absent
and the looked-up timestamp otherwise. -/
theorem c5_last_commit (c : String → String → String → CommitsResult)
    (username repo_name file_path : String) (now : Int) :
    (∀ c0 cs, c username repo_name file_path = .resp 200 (c0 :: cs) →
      get_file_last_commit c username repo_name file_path = (some c0.date, [])) ∧
    (∀ status commits, c username repo_name file_path = .resp status commits →
      status ≠ 200 → (get_file_last_commit c username repo_name file_path).1 = none) ∧
    (c username repo_name file_path = .resp 200 [] →
      (get_file_last_commit c username repo_name file_path).1 = none) ∧
    (∀ msg, c username repo_name file_path = .exn msg →
      (get_file_last_commit c username repo_name file_path).1 = none) ∧
    (∀ f : Item, f.path = file_path →
      (get_file_last_commit c username repo_name file_path).1 = none →
      (mkRecord c username repo_name now f).updated_at = now) ∧
    (∀ f : Item, ∀ t : Int, f.path = file_path →
      (get_file_last_commit c username repo_name file_path).1 = some t →
      (mkRecord c username repo_name now f).updated_at = t) := by
  refine ⟨?_, ?_, ?_, ?_, ?_, ?_⟩
  · intro c0 cs hc; simp [get_file_last_commit, hc]
  · intro status commits hc hs; simp [get_file_last_commit, hc, hs]
  · intro hc; simp [get_file_last_commit, hc]
  · intro msg hc; simp [get_file_last_commit, hc]
  · intro f hp hnone; simp [mkRecord, hp, hnone]
  · intro f t hp hsome; simp [mkRecord, hp, hsome]


/-- Closed instance of `c5_last_commit`: the successful lookup returns the
head commit's date, and the record takes it. -/
theorem c5_last_commit_witness :
    get_file_last_commit commitsEx "sportomax1" "r" "a.txt" = (some 1700000000, []) ∧
    (mkRecord commitsEx "sportomax1" "r" 42 ⟨"file", "a.txt", "a.txt", "u", none⟩).updated_at =
      1700000000 := by
  have h := c5_last_commit commitsEx "sportomax1" "r" "a.txt" 42
  refine ⟨h.1 ⟨1700000000⟩ [] (by decide), ?_⟩
  exact h.2.2.2.2.2 ⟨"file", "a.txt", "a.txt", "u", none⟩ 1700000000 rfl
    (by rw [h.1 ⟨1700000000⟩ [] (by decide)])

/-- C10: every element of the list returned by `get_repo_files` has entry
type `"file"`; directories are recursed into but never emitted. -/
theorem c10_only_files (c : String → String → String → ContentsResult)
    (username repo_name : String) :
    ∀ fuel path, ∀ it ∈ (get_repo_files c username repo_name fuel path).1,
      it.type = "file" := by
  intro fuel
  induction fuel with
  | zero => intro path it h; simp [get_repo_files] at h
  | succ fuel ih =>
    intro path it h
    cases hc : c username repo_name path with
    | exn msg => simp [get_repo_files, hc] at h
    | resp status items =>
      simp only [get_repo_files, hc] at h
      by_cases hs : status ≠ 200
      · rw [if_pos hs] at h; simp at h
      · rw [if_neg hs] at h
        clear hc
        induction items with
        | nil => simp at h
        | cons item rest ihr =>
          simp only [List.foldr] at h
          by_cases ht : item.type = "file"
          · rw [if_pos ht] at h
            rcases List.mem_cons.mp h with h | h
            · rw [h]; exact ht
            · exact ihr h
          · rw [if_neg ht] at h
            by_cases hd : item.type = "dir"
            · rw [if_pos hd] at h
              rcases List.mem_append.mp h with h | h
              · exact ih item.path it h
              · exact ihr h
            · rw [if_neg hd] at h
              exact ihr h


/-- Closed instance of `c10_only_files`: the entry found inside the
subdirectory of the concrete listing has type `"file"`. -/
theorem c10_only_files_witness :
    (⟨"file", "b.txt", "d/b.txt", "u3", some 1⟩ : Item).type = "file" :=
  c10_only_files contentsEx "sportomax1" "r" 3 ""
    ⟨"file", "b.txt", "d/b.txt", "u3", some 1⟩ (by decide)

end MasterIndex

namespace MasterIndex

/-- Stepping lemma for the page loop: across `n` consecutive pages that
answer 200 with a nonempty body, the loop advances the page counter and
accumulates the bodies and the requested URLs in order. -/
theorem get_github_repos_go_steps (api : String → ReposResult) (u : String)
    (pg : Nat → List Repo) :
    ∀ n page acc urls log fuel,
      (∀ i, i < n →
        api (reposUrl u (page + i) 100) = .resp 200 (pg (page + i)) ∧ pg (page + i) ≠ []) →
      get_github_repos_go api u (n + fuel) page acc urls log =
        get_github_repos_go api u fuel (page + n)
          (acc ++ ((List.range' page n).map pg).flatten)
          (urls ++ (List.range' page n).map (fun i => reposUrl u i 100)) log := by
  intro n
  induction n with
  | zero => intro page acc urls log fuel _; simp
  | succ n ihn =>
    intro page acc urls log fuel h
    have h0 := h 0 (Nat.succ_pos n)
    rw [Nat.add_zero] at h0
    rw [show n + 1 + fuel = (n + fuel) + 1 from by omega]
    simp only [get_github_repos_go, h0.1]
    rw [if_neg (by simp), if_neg h0.2]
    have hrec := ihn (page + 1) (acc ++ pg page) (urls ++ [reposUrl u page 100]) log fuel
      (by
        intro i hi
        have := h (i + 1) (by omega)
        rwa [show page + (i + 1) = page + 1 + i from by omega] at this)
    rw [hrec, List.range'_succ]
    rw [show page + 1 + n = page + (n + 1) from by omega]
    simp [List.append_assoc]

/-- C8: the repository enumeration requests consecutive pages of the fixed
page size 100, stopping at the first page that returns a non-success status
(in which case it returns the partial list collected from the earlier pages
and prints an error) or an empty body (partial list, no error). -/
theorem c8_pagination (api : String → ReposResult) (u : String) (pg : Nat → List Repo)
    (k fuel : Nat)
    (hpages : ∀ i, i < k →
      api (reposUrl u (i + 1) 100) = .resp 200 (pg (i + 1)) ∧ pg (i + 1) ≠ [])
    (hfuel : k + 1 ≤ fuel) :
    (∀ status body, api (reposUrl u (k + 1) 100) = .resp status body → status ≠ 200 →
      get_github_repos api u fuel =
        .ok (((List.range' 1 k).map pg).flatten,
             (List.range' 1 (k + 1)).map (fun i => reposUrl u i 100),
             ["Error fetching repos: " ++ natRepr status])) ∧
    (api (reposUrl u (k + 1) 100) = .resp 200 [] →
      get_github_repos api u fuel =
        .ok (((List.range' 1 k).map pg).flatten,
             (List.range' 1 (k + 1)).map (fun i => reposUrl u i 100), [])) := by
  have hsplit : fuel = k + ((fuel - k - 1) + 1) := by omega
  have hsteps := get_github_repos_go_steps api u pg k 1 [] [] [] ((fuel - k - 1) + 1)
    (by
      intro i hi
      have := hpages i hi
      rwa [show 1 + i = i + 1 from by omega])
  rw [show 1 + k = k + 1 from by omega] at hsteps
  have hurls :
      (List.range' 1 k).map (fun i => reposUrl u i 100) ++ [reposUrl u (k + 1) 100] =
        (List.range' 1 (k + 1)).map (fun i => reposUrl u i 100) := by
    rw [List.range'_concat]
    simp
    rw [Nat.add_comm 1 k]
  constructor
  · intro status body hlast hstatus
    rw [get_github_repos, hsplit, hsteps]
    simp only [get_github_repos_go, List.nil_append, hlast]
    rw [if_pos hstatus]
    rw [hurls]
  · intro hlast
    rw [get_github_repos, hsplit, hsteps]
    simp only [get_github_repos_go, List.nil_append, hlast]
    rw [if_true]
    rw [hurls]
    simp


/-- Closed instance of `c8_pagination`: two pages collected, the 403 stops
the loop, the partial list is returned and the error is printed. -/
theorem c8_pagination_witness :
    get_github_repos reposApiEx "sportomax1" 5 =
      .ok ([⟨"r1"⟩, ⟨"r2"⟩, ⟨"r3"⟩],
           [reposUrl "sportomax1" 1 100, reposUrl "sportomax1" 2 100,
            reposUrl "sportomax1" 3 100],
           ["Error fetching repos: " ++ natRepr 403]) := by
  have h := (c8_pagination reposApiEx "sportomax1"
      (fun i => if i = 1 then [⟨"r1"⟩, ⟨"r2"⟩] else [⟨"r3"⟩]) 2 5
      (by decide) (by omega)).1 403 [] (by decide) (by decide)
  rw [h]
  decide

end MasterIndex

namespace MasterIndex

/-- C7: a record of size 0 renders its size as "0 KB" and a record of size
2048 as "2.0 KB", both as computed by `size_str` and as embedded in the
rendered list entry. -/
theorem c7_size_formatting (now : Int) (r : FileInfo) :
    (size_str 0 = "0 KB" ∧ size_str 2048 = "2.0 KB") ∧
    (r.size = 0 → ∃ a b : String, renderItem now r = a ++ "📦 0 KB" ++ b) ∧
    (r.size = 2048 → ∃ a b : String, renderItem now r = a ++ "📦 2.0 KB" ++ b) := by
  refine ⟨⟨by decide, by decide⟩, ?_, ?_⟩
  · intro h0
    refine ⟨"\n            <li class=\"file-item\" data-ext=\"" ++ file_ext r.name
      ++ "\" data-repo=\"" ++ r.repo
      ++ "\" data-name=\"" ++ lowerS r.name
      ++ "\" data-path=\"" ++ lowerS r.path
      ++ "\" data-updated=\"" ++ tsRender r.updated_at
      ++ "\" data-size=\"" ++ natRepr 0
      ++ "\">\n                <div class=\"file-header\">\n                    <a href=\"" ++ r.url
      ++ "\" class=\"file-name\" target=\"_blank\">" ++ r.name
      ++ "</a>\n                    <span class=\"repo-badge\">" ++ r.repo
      ++ "</span>\n                </div>\n                <div class=\"file-path\">" ++ r.path
      ++ "</div>\n                <div class=\"file-meta\">\n                    <span class=\"time-ago\">⏱️ "
      ++ format_time_since (now - r.updated_at)
      ++ "</span>\n                    <span class=\"file-size\">",
      "</span>\n                </div>\n            </li>\n", ?_⟩
    simp only [renderItem, h0]
    rw [show size_str 0 = "0 KB" from by decide]
    refine congrArg (fun s => s ++ "</span>\n                </div>\n            </li>\n") ?_
    rw [String.append_assoc]
    rw [show ("</span>\n                    <span class=\"file-size\">📦 " : String) ++ "0 KB" = "</span>\n                    <span class=\"file-size\">" ++ "📦 0 KB" from by decide]
    exact (String.append_assoc _ _ _).symm
  · intro h0
    refine ⟨"\n            <li class=\"file-item\" data-ext=\"" ++ file_ext r.name
      ++ "\" data-repo=\"" ++ r.repo
      ++ "\" data-name=\"" ++ lowerS r.name
      ++ "\" data-path=\"" ++ lowerS r.path
      ++ "\" data-updated=\"" ++ tsRender r.updated_at
      ++ "\" data-size=\"" ++ natRepr 2048
      ++ "\">\n                <div class=\"file-header\">\n                    <a href=\"" ++ r.url
      ++ "\" class=\"file-name\" target=\"_blank\">" ++ r.name
      ++ "</a>\n                    <span class=\"repo-badge\">" ++ r.repo
      ++ "</span>\n                </div>\n                <div class=\"file-path\">" ++ r.path
      ++ "</div>\n                <div class=\"file-meta\">\n                    <span class=\"time-ago\">⏱️ "
      ++ format_time_since (now - r.updated_at)
      ++ "</span>\n                    <span class=\"file-size\">",
      "</span>\n                </div>\n            </li>\n", ?_⟩
    simp only [renderItem, h0]
    rw [show size_str 2048 = "2.0 KB" from by decide]
    refine congrArg (fun s => s ++ "</span>\n                </div>\n            </li>\n") ?_
    rw [String.append_assoc]
    rw [show ("</span>\n                    <span class=\"file-size\">📦 " : String) ++ "2.0 KB" = "</span>\n                    <span class=\"file-size\">" ++ "📦 2.0 KB" from by decide]
    exact (String.append_assoc _ _ _).symm

/-- Closed instance of `c7_size_formatting` at a record of size 2048. -/
theorem c7_size_formatting_witness :
    ∃ a b : String,
      renderItem 0 ⟨"r", "a.bin", "a.bin", "u", 2048, 0⟩ = a ++ "📦 2.0 KB" ++ b :=
  (c7_size_formatting 0 ⟨"r", "a.bin", "a.bin", "u", 2048, 0⟩).2.2 rfl

/-- C6 counterexample: a run in which the repository-enumeration request
raises propagates the exception out of `generate_master_html_index`; no
output value is produced, contradicting "for every run the output HTML
file is written". -/
theorem c6_counterexample :
    generate_master_html_index apiBoom 0 5 "sportomax1" "master_index.html" =
      .raised "boom" := by decide

/-- C6 (amended): on every run in which repository enumeration completes
without raising, the output file is written at the requested path; with an
empty repository list the document embeds a zero repository count, a zero
file count, and an empty file list; and with a nonempty repository list but
no collected files it embeds a zero file count and an empty list. -/
theorem c6_output_written (api : Api) (now : Int) (fuel : Nat)
    (username output_file : String) (repos : List Repo) (urls log : List String)
    (hok : get_github_repos api.repos username fuel = .ok (repos, urls, log)) :
    (∃ out : Output,
       generate_master_html_index api now fuel username output_file = .ok out ∧
       out.path = output_file) ∧
    (repos = [] →
       generate_master_html_index api now fuel username output_file =
         .ok ⟨output_file, htmlHead username 0 0 ++ itemsHtml now [] ++ htmlFoot⟩ ∧
       itemsHtml now [] = "" ∧
       (∃ a b c : String,
          htmlHead username 0 0 =
            a ++ (statv ++ natRepr 0 ++ dclose) ++ b ++ (statv ++ natRepr 0 ++ dclose) ++ c) ∧
       statv ++ natRepr 0 ++ dclose = "<div class=\"stat-value\">0</div>") ∧
    (collectFiles api username now fuel repos = [] →
       generate_master_html_index api now fuel username output_file =
         .ok ⟨output_file,
              htmlHead username repos.length 0 ++ itemsHtml now [] ++ htmlFoot⟩) := by
  refine ⟨⟨⟨output_file,
      htmlHead username repos.length
          (sortFilesDesc (collectFiles api username now fuel repos)).length ++
        itemsHtml now (sortFilesDesc (collectFiles api username now fuel repos)) ++
        htmlFoot⟩,
    by simp only [generate_master_html_index, hok], rfl⟩, ?_, ?_⟩
  · intro hrep
    subst hrep
    refine ⟨?_, rfl, ?_, ?_⟩
    · simp only [generate_master_html_index, hok]
      rfl
    · refine ⟨hs1 ++ username ++ hs2 ++ username ++ hs3p, hs4m,
        hs5m ++ natRepr 0 ++ hs6, ?_⟩
      simp only [htmlHead, String.append_assoc]
    · rw [show natRepr 0 = "0" from by decide]
      decide
  · intro hempty
    simp only [generate_master_html_index, hok, hempty]
    rfl

/-- Closed instance of `c6_output_written`: zero repositories still produce
the document, with zero counts and an empty list. -/
theorem c6_output_written_witness :
    generate_master_html_index apiEmpty 0 5 "sportomax1" "master_index.html" =
      .ok ⟨"master_index.html", htmlHead "sportomax1" 0 0 ++ itemsHtml 0 [] ++ htmlFoot⟩ ∧
    statv ++ natRepr 0 ++ dclose = "<div class=\"stat-value\">0</div>" := by
  have h := c6_output_written apiEmpty 0 5 "sportomax1" "master_index.html"
    [] [reposUrl "sportomax1" 1 100] [] (by decide)
  exact ⟨(h.2.1 rfl).1, (h.2.1 rfl).2.2.2⟩

end MasterIndex

namespace MasterIndex

/-- `get_repo_files` for a given repository only queries the contents
endpoint at that repository's name: two APIs that agree there produce
identical results. -/
theorem get_repo_files_congr (c1 c2 : String → String → String → ContentsResult)
    (u r : String) (h : ∀ p, c1 u r p = c2 u r p) :
    ∀ fuel path, get_repo_files c1 u r fuel path = get_repo_files c2 u r fuel path := by
  intro fuel
  induction fuel with
  | zero => intro path; rfl
  | succ fuel ih =>
    intro path
    simp only [get_repo_files, h path]
    cases h2 : c2 u r path with
    | exn msg => simp only [h2]
    | resp status items =>
      simp only [h2]
      by_cases hs : status ≠ 200
      · simp [hs]
      · simp only [if_neg hs]
        clear h2
        induction items with
        | nil => rfl
        | cons item rest ihr =>
          simp only [List.foldr]
          rw [ihr]
          by_cases ht : item.type = "file"
          · simp [ht]
          · by_cases hd : item.type = "dir"
            · simp only [if_neg ht, if_pos hd]
              rw [ih item.path]
            · simp [ht, hd]

/-- `mkRecord` only queries the commits endpoint at its repository's
name. -/
theorem mkRecord_congr (k1 k2 : String → String → String → CommitsResult)
    (u r : String) (now : Int) (h : ∀ p, k1 u r p = k2 u r p) (f : Item) :
    mkRecord k1 u r now f = mkRecord k2 u r now f := by
  simp only [mkRecord, get_file_last_commit, h f.path]

/-- The records of one repository depend only on the API's behaviour at
that repository. -/
theorem collectRepo_congr (api api2 : Api) (u : String) (now : Int) (fuel : Nat)
    (q : Repo)
    (hc : ∀ p, api.contents u q.name p = api2.contents u q.name p)
    (hk : ∀ p, api.commits u q.name p = api2.commits u q.name p) :
    collectRepo api u now fuel q = collectRepo api2 u now fuel q := by
  simp only [collectRepo]
  rw [get_repo_files_congr api.contents api2.contents u q.name hc]
  exact List.map_congr_left (fun f _ => mkRecord_congr _ _ _ _ now hk f)

/-- C9: if the content listing of one repository `R` answers a non-success
status, the run still completes with zero records from `R`, and the records
of every repository with a different name are exactly what they would be
under any API that behaves the same outside `R` (in particular one where
`R`'s listing succeeds). -/
theorem c9_repo_isolation (api api2 : Api) (username : String) (now : Int)
    (fuel : Nat) (R : Repo) (repos : List Repo) (status : Nat) (items : List Item)
    (hfail : api.contents username R.name "" = .resp status items)
    (hst : status ≠ 200)
    (hc : ∀ q p, q ≠ R.name → api.contents username q p = api2.contents username q p)
    (hk : ∀ q p, q ≠ R.name → api.commits username q p = api2.commits username q p) :
    collectRepo api username now fuel R = [] ∧
    (∀ q : Repo, q.name ≠ R.name →
       collectRepo api username now fuel q = collectRepo api2 username now fuel q) ∧
    collectFiles api username now fuel repos =
      (repos.map (fun q =>
        if q.name = R.name then [] else collectRepo api2 username now fuel q)).flatten := by
  have hR : ∀ q : Repo, q.name = R.name → collectRepo api username now fuel q = [] := by
    intro q hq
    cases fuel with
    | zero => rfl
    | succ fuel => simp [collectRepo, get_repo_files, hq, hfail, hst]
  refine ⟨hR R rfl, ?_, ?_⟩
  · intro q hq
    exact collectRepo_congr api api2 username now fuel q
      (fun p => hc q.name p hq) (fun p => hk q.name p hq)
  · simp only [collectFiles]
    congr 1
    apply List.map_congr_left
    intro q _
    by_cases hq : q.name = R.name
    · rw [if_pos hq]
      exact hR q hq
    · rw [if_neg hq]
      exact collectRepo_congr api api2 username now fuel q
        (fun p => hc q.name p hq) (fun p => hk q.name p hq)

/-- A second API agreeing with `contentsEx`-plus-failures outside `broken`. -/
def apiC9a : Api :=
  ⟨fun _ => .resp 200 [],
   fun _ rname p => if rname = "broken" then .resp 500 [] else contentsEx "sportomax1" "good" p,
   fun _ _ _ => .resp 404 []⟩

/-- Like `apiC9a` but `broken`'s listing succeeds. -/
def apiC9b : Api :=
  ⟨fun _ => .resp 200 [],
   fun _ rname p =>
     if rname = "broken" then .resp 200 [⟨"file", "x", "x", "u", some 1⟩]
     else contentsEx "sportomax1" "good" p,
   fun _ _ _ => .resp 404 []⟩

/-- Closed instance of `c9_repo_isolation`: the broken repository yields no
records and the other repository's records agree across the two APIs. -/
theorem c9_repo_isolation_witness :
    collectRepo apiC9a "sportomax1" 7 3 ⟨"broken"⟩ = [] ∧
    collectRepo apiC9a "sportomax1" 7 3 ⟨"good"⟩ =
      collectRepo apiC9b "sportomax1" 7 3 ⟨"good"⟩ := by
  have h := c9_repo_isolation apiC9a apiC9b "sportomax1" 7 3 ⟨"broken"⟩ [] 500 []
    rfl (by decide)
    (by intro q p hq; simp only [apiC9a, apiC9b]; rw [if_neg hq, if_neg hq])
    (by intro q p hq; rfl)
  exact ⟨h.1, h.2.1 ⟨"good"⟩ (by decide)⟩

end MasterIndex

namespace MasterIndex

/-- Unfolding: a marker match gives the first fourteen characters. -/
theorem isMarkerAt_take (s : List Char) (h : isMarkerAt s = true) : s.take 14 = marker := by
  simpa [isMarkerAt] using h

/-- A marker match determines the characters pointwise. -/
theorem marker_pointwise (s : List Char) (h : isMarkerAt s = true) :
    ∀ j, j < 14 → s[j]? = marker[j]? := by
  intro j hj
  have ht := isMarkerAt_take s h
  calc s[j]? = (s.take 14)[j]? := by simp [List.getElem?_take, hj]
    _ = marker[j]? := by rw [ht]

/-- The empty string yields no attribute values. -/
theorem extract_nil : extractUpd [] = [] := by simp [extractUpd]

/-- A position with no marker is skipped. -/
theorem extract_cons_neg (c : Char) (cs : List Char) (h : isMarkerAt (c :: cs) = false) :
    extractUpd (c :: cs) = extractUpd cs := by
  rw [extractUpd]
  simp [h]

/-- A block within which no marker occurrence starts is transparent to
extraction. -/
theorem extract_skip (a b : List Char) (h : NoOccBefore a b) :
    extractUpd (a ++ b) = extractUpd b := by
  induction a with
  | nil => simp
  | cons c cs ih =>
    have h0 : isMarkerAt (c :: (cs ++ b)) = false := by
      have := h 0 (by simp)
      simpa using this
    rw [List.cons_append, extract_cons_neg _ _ h0]
    apply ih
    intro i hi
    have := h (i + 1) (by simp only [List.length_cons]; omega)
    simpa [List.drop_succ_cons] using this

/-- A safe template chunk admits no marker occurrence starting inside it,
whatever follows. -/
theorem chunkSafe_noOcc (t : List Char) (ht : chunkSafe t = true) (b : List Char) :
    NoOccBefore t b := by
  intro i hi
  by_contra hocc
  rw [Bool.not_eq_false] at hocc
  have htake := isMarkerAt_take _ hocc
  have hdrop : (t ++ b).drop i = t.drop i ++ b := by
    rw [List.drop_append_eq_append_drop]
    rw [show i - t.length = 0 from by omega, List.drop_zero]
  rw [hdrop] at htake
  have hL : min 14 (t.length - i) ≤ 14 := by omega
  have h2 := congrArg (List.take (min 14 (t.length - i))) htake
  rw [List.take_take, min_eq_left hL] at h2
  rw [List.take_append_eq_append_take] at h2
  have hlen : (t.drop i).length = t.length - i := by simp
  have hz : min 14 (t.length - i) - (t.drop i).length = 0 := by
    rw [hlen]; omega
  rw [hz, List.take_zero, List.append_nil] at h2
  have h3 : (t.drop i).take 14 = (t.drop i).take (min 14 (t.length - i)) := by
    rw [List.take_eq_take]
    rw [hlen]
    omega
  simp only [chunkSafe, List.all_eq_true, List.mem_range] at ht
  have := ht i hi
  rw [bne_iff_ne] at this
  exact this (by rw [h3, h2])

end MasterIndex

namespace MasterIndex

/-- A clean value followed directly by a closing quote admits no marker
occurrence starting inside it: the marker's unique quote is its last
character, so an occurrence would either put a quote inside the value, or
place the closing quote exactly at the marker's end — making the value end
with the marker core — or put the closing quote strictly inside the
quote-free part of the marker. -/
theorem cleanVal_noOcc (v : List Char) (hv : cleanVal v) (w : List Char) :
    NoOccBefore v ('"' :: w) := by
  obtain ⟨hq, hm⟩ := hv
  intro i hi
  by_contra hocc
  rw [Bool.not_eq_false] at hocc
  have hp := marker_pointwise _ hocc
  have hchar : ∀ j, j < 14 → (v ++ '"' :: w)[i + j]? = marker[j]? := by
    intro j hj
    rw [← List.getElem?_drop]
    exact hp j hj
  have h13 : (v ++ '"' :: w)[i + 13]? = some '"' := by
    rw [hchar 13 (by omega)]
    decide
  rcases Nat.lt_trichotomy (i + 13) v.length with hc | hc | hc
  · rw [List.getElem?_append, if_pos hc] at h13
    exact hq (List.getElem?_mem h13)
  · have hsub : (v.drop i).take 13 = m13 := by
      apply List.ext_getElem?
      intro n
      by_cases hn : n < 13
      · have e1 : ((v.drop i).take 13)[n]? = (v.drop i)[n]? := by
          simp [List.getElem?_take, hn]
        rw [e1, List.getElem?_drop]
        have e2 := hchar n (by omega)
        rw [List.getElem?_append, if_pos (show i + n < v.length from by omega)] at e2
        rw [e2]
        exact (by decide : ∀ nn, nn < 13 → marker[nn]? = m13[nn]?) n hn
      · have hlen1 : ((v.drop i).take 13).length ≤ n := by
          simp only [List.length_take, List.length_drop]
          omega
        have hlen2 : m13.length ≤ n := by
          rw [show m13.length = 13 from by decide]
          omega
        rw [List.getElem?_eq_none hlen1, List.getElem?_eq_none hlen2]
    have htrue : hasM13 v = true := by
      simp only [hasM13, List.any_eq_true, List.mem_range]
      exact ⟨i, by omega, by rw [hsub]; simp⟩
    rw [hm] at htrue
    exact absurd htrue (by simp)
  · have hj1 : 1 ≤ v.length - i := by omega
    have hj2 : v.length - i ≤ 12 := by omega
    have hq13 : (v ++ '"' :: w)[i + (v.length - i)]? = some '"' := by
      rw [show i + (v.length - i) = v.length from by omega]
      rw [List.getElem?_append_right (le_refl _)]
      simp
    rw [hchar (v.length - i) (by omega)] at hq13
    exact (by decide : ∀ jj, jj < 13 → 1 ≤ jj → marker[jj]? ≠ some '"')
      (v.length - i) (by omega) hj1 hq13

/-- A quote-free value whose following thirteen characters are quote-free
admits no marker occurrence starting inside it: there is no quote anywhere
the marker's closing quote would have to sit. -/
theorem text_noOcc (v t : List Char) (hq : '"' ∉ v) (h13 : '"' ∉ t.take 13) :
    NoOccBefore v t := by
  intro i hi
  by_contra hocc
  rw [Bool.not_eq_false] at hocc
  have hp := marker_pointwise _ hocc
  have h13m : (v ++ t)[i + 13]? = some '"' := by
    rw [← List.getElem?_drop]
    rw [hp 13 (by omega)]
    decide
  by_cases hc : i + 13 < v.length
  · rw [List.getElem?_append, if_pos hc] at h13m
    exact hq (List.getElem?_mem h13m)
  · rw [List.getElem?_append_right (by omega)] at h13m
    have hk : i + 13 - v.length < 13 := by omega
    have : (t.take 13)[i + 13 - v.length]? = some '"' := by
      simp [List.getElem?_take, hk, h13m]
    exact h13 (List.getElem?_mem this)

/-- A quote-free value followed by a quote splits `takeWhile`/`dropWhile`
at the quote. -/
theorem takeWhile_qf (v w : List Char) (hq : '"' ∉ v) :
    (v ++ '"' :: w).takeWhile (fun ch => ch != '"') = v ∧
    (v ++ '"' :: w).dropWhile (fun ch => ch != '"') = '"' :: w := by
  induction v with
  | nil => constructor <;> simp [List.takeWhile, List.dropWhile]
  | cons c cs ih =>
    simp only [List.mem_cons, not_or] at hq
    have hc : (c != '"') = true := by
      rw [bne_iff_ne]
      exact fun h => hq.1 h.symm
    have hc2 : (fun ch : Char => ch != '"') c = true := hc
    have := ih (by intro hmem; exact hq.2 hmem)
    constructor
    · rw [List.cons_append, @List.takeWhile_cons_of_pos _ (fun ch => ch != '"') c _ hc2,
        this.1]
    · rw [List.cons_append, @List.dropWhile_cons_of_pos _ (fun ch => ch != '"') c _ hc2,
        this.2]

/-- Unfolding of extraction at a marker position. -/
theorem extract_pos (s : List Char) (hne : s ≠ []) (h : isMarkerAt s = true) :
    extractUpd s = (s.drop 14).takeWhile (fun ch => ch != '"') ::
      extractUpd (((s.drop 14).dropWhile (fun ch => ch != '"')).drop 1) := by
  cases s with
  | nil => exact absurd rfl hne
  | cons c cs =>
    rw [extractUpd]
    simp [h]

/-- The emission step: at a marker, the quote-delimited value that follows
is read off, and extraction continues after its closing quote. -/
theorem extract_emit (v w : List Char) (hq : '"' ∉ v) :
    extractUpd (marker ++ (v ++ '"' :: w)) = v :: extractUpd w := by
  have hm : isMarkerAt (marker ++ (v ++ '"' :: w)) = true := by
    unfold isMarkerAt
    rw [List.take_left' (show marker.length = 14 from by decide)]
    simp
  rw [extract_pos _ (by simp [marker, m13]) hm]
  rw [List.drop_left' (show marker.length = 14 from by decide)]
  rw [(takeWhile_qf v w hq).1, (takeWhile_qf v w hq).2]
  simp

/-- A string not starting with `d` is not at a marker. -/
theorem isMarkerAt_head (c : Char) (cs : List Char) (hc : c ≠ 'd') :
    isMarkerAt (c :: cs) = false := by
  unfold isMarkerAt
  rw [beq_eq_false_iff_ne]
  intro h
  rw [List.take_succ_cons] at h
  rw [show marker = 'd' :: ("ata-updated=\"" : String).data from by decide] at h
  exact hc (List.cons.injEq .. ▸ h).1

end MasterIndex

namespace MasterIndex

/-- Every character produced by the digit loop satisfies any property of
the ten digit characters. -/
theorem natToDigits_chars (P : Char → Prop) (hP : ∀ d, d < 10 → P (digitChar d)) :
    ∀ fuel n acc, (∀ c ∈ acc, P c) → ∀ c ∈ natToDigits fuel n acc, P c := by
  intro fuel
  induction fuel with
  | zero => intro n acc hacc c hc; exact hacc c hc
  | succ fuel ih =>
    intro n acc hacc c hc
    simp only [natToDigits] at hc
    by_cases hq : n / 10 = 0
    · rw [if_pos hq] at hc
      rcases List.mem_cons.mp hc with h | h
      · rw [h]; exact hP _ (Nat.mod_lt _ (by omega))
      · exact hacc c h
    · rw [if_neg hq] at hc
      refine ih _ _ ?_ c hc
      intro c2 hc2
      rcases List.mem_cons.mp hc2 with h | h
      · rw [h]; exact hP _ (Nat.mod_lt _ (by omega))
      · exact hacc c2 h

/-- `str(n)` consists of digit characters only: no quote, no equals
sign. -/
theorem natRepr_chars (n : Nat) :
    ('"' ∉ (natRepr n).data) ∧ ('=' ∉ (natRepr n).data) := by
  have h := natToDigits_chars (fun c => c ≠ '"' ∧ c ≠ '=')
    (by decide) (n + 1) n [] (by simp)
  exact ⟨fun hm => (h _ hm).1 rfl, fun hm => (h _ hm).2 rfl⟩

/-- `str(i)` adds at most a minus sign. -/
theorem intRepr_chars (i : Int) :
    ('"' ∉ (intRepr i).data) ∧ ('=' ∉ (intRepr i).data) := by
  unfold intRepr
  by_cases h : i < 0
  · rw [if_pos h]
    constructor <;>
      · intro hm
        simp only [String.data_append, List.mem_append] at hm
        rcases hm with hm | hm
        · revert hm; decide
        · first
          | exact (natRepr_chars _).1 hm
          | exact (natRepr_chars _).2 hm
  · rw [if_neg h]
    exact natRepr_chars _

/-- The rendered timestamp is quote-free and equals-free. -/
theorem tsRender_chars (t : Int) :
    ('"' ∉ (tsRender t).data) ∧ ('=' ∉ (tsRender t).data) := by
  unfold tsRender
  constructor <;>
    · intro hm
      simp only [String.data_append, List.mem_append] at hm
      rcases hm with hm | hm
      · first
        | exact (intRepr_chars _).1 hm
        | exact (intRepr_chars _).2 hm
      · revert hm; decide

/-- A string without an equals sign cannot contain the marker core. -/
theorem noM13_of_no_eq (v : List Char) (h : '=' ∉ v) : hasM13 v = false := by
  by_contra hx
  rw [Bool.not_eq_false] at hx
  simp only [hasM13, List.any_eq_true, List.mem_range] at hx
  obtain ⟨i, _, hbeq⟩ := hx
  rw [beq_iff_eq] at hbeq
  have h1 : '=' ∈ (v.drop i).take 13 := by rw [hbeq]; decide
  exact h (List.mem_of_mem_drop (List.mem_of_mem_take h1))

/-- `str(n)` is a clean attribute value. -/
theorem natRepr_clean (n : Nat) : cleanVal (natRepr n).data :=
  ⟨(natRepr_chars n).1, noM13_of_no_eq _ (natRepr_chars n).2⟩

/-- Quote-freedom is preserved by concatenation. -/
theorem no_quote_append (a b : String) (ha : '"' ∉ a.data) (hb : '"' ∉ b.data) :
    '"' ∉ (a ++ b).data := by
  intro hm
  simp only [String.data_append, List.mem_append] at hm
  exact hm.elim ha hb

/-- The relative-time string never contains a quote. -/
theorem format_time_no_quote (s : Int) : '"' ∉ (format_time_since s).data := by
  simp only [format_time_since]
  split
  · decide
  · split
    · apply no_quote_append
      · apply no_quote_append
        · apply no_quote_append
          · exact (intRepr_chars _).1
          · decide
        · split <;> decide
      · decide
    · split
      · apply no_quote_append
        · apply no_quote_append
          · apply no_quote_append
            · exact (intRepr_chars _).1
            · decide
          · split <;> decide
        · decide
      · apply no_quote_append
        · apply no_quote_append
          · apply no_quote_append
            · exact (intRepr_chars _).1
            · decide
          · split <;> decide
        · decide

/-- The size string never contains a quote. -/
theorem size_str_no_quote (n : Nat) : '"' ∉ (size_str n).data := by
  simp only [size_str]
  split
  · apply no_quote_append
    · apply no_quote_append
      · apply no_quote_append
        · exact (natRepr_chars _).1
        · decide
      · exact (natRepr_chars _).1
    · decide
  · decide

end MasterIndex

namespace MasterIndex

/-- Skipping a safe template chunk. -/
theorem skip_chunk (t : List Char) (ht : chunkSafe t = true) (rest : List Char) :
    extractUpd (t ++ rest) = extractUpd rest :=
  extract_skip t rest (chunkSafe_noOcc t ht rest)

/-- Skipping a clean attribute value together with the following template
chunk, which starts with the value's closing quote. -/
theorem skip_attr (v t : List Char) (hv : cleanVal v) (hh : t.head? = some '"')
    (ht : chunkSafe t = true) (rest : List Char) :
    extractUpd (v ++ (t ++ rest)) = extractUpd rest := by
  cases t with
  | nil => simp at hh
  | cons c ts =>
    have hc : c = '"' := by simpa using hh
    subst hc
    rw [List.cons_append]
    rw [extract_skip v _ (cleanVal_noOcc v hv _)]
    rw [show ('"' : Char) :: (ts ++ rest) = ('"' :: ts) ++ rest from rfl]
    exact extract_skip _ _ (chunkSafe_noOcc _ ht rest)

/-- Skipping a quote-free text value together with the following template
chunk, whose first thirteen characters are quote-free. -/
theorem skip_text (v t : List Char) (hq : '"' ∉ v) (h13 : '"' ∉ t.take 13)
    (hlen : 13 ≤ t.length) (ht : chunkSafe t = true) (rest : List Char) :
    extractUpd (v ++ (t ++ rest)) = extractUpd rest := by
  have htr : '"' ∉ (t ++ rest).take 13 := by
    rw [List.take_append_eq_append_take]
    rw [show 13 - t.length = 0 from by omega, List.take_zero, List.append_nil]
    exact h13
  rw [extract_skip v (t ++ rest) (text_noOcc v (t ++ rest) hq htr)]
  exact skip_chunk t ht rest

/-- The `data-updated` attribute: its clean predecessor value is skipped,
the timestamp value is emitted, and extraction resumes after the closing
quote, inside the following `data-size` chunk. -/
theorem emit_attr (vp vts rest : List Char) (hvp : cleanVal vp) (hts : '"' ∉ vts) :
    extractUpd (vp ++ (("\" data-updated=\"" : String).data ++
        (vts ++ (("\" data-size=\"" : String).data ++ rest)))) =
      vts :: extractUpd ((" data-size=\"" : String).data ++ rest) := by
  rw [show ("\" data-updated=\"" : String).data = '"' :: (' ' :: marker) from by decide]
  rw [show ("\" data-size=\"" : String).data =
    '"' :: (" data-size=\"" : String).data from by decide]
  simp only [List.cons_append, List.append_assoc]
  rw [extract_skip vp _ (cleanVal_noOcc vp hvp _)]
  rw [extract_cons_neg _ _ (isMarkerAt_head _ _ (by decide))]
  rw [extract_cons_neg _ _ (isMarkerAt_head _ _ (by decide))]
  exact extract_emit vts _ hts

end MasterIndex

namespace MasterIndex

/-- One rendered entry contributes exactly its own timestamp to the
extracted `updated` attributes, for benign field values, whatever follows
it in the document. -/
theorem render_extract (now : Int) (r : FileInfo) (hb : Benign r) (Z : List Char) :
    extractUpd ((renderItem now r).data ++ Z) =
      (tsRender r.updated_at).data :: extractUpd Z := by
  obtain ⟨he, hr, hn, hp, hu, hnm, hpr⟩ := hb
  simp only [renderItem, String.data_append, List.append_assoc]
  rw [skip_chunk ("\n            <li class=\"file-item\" data-ext=\"" : String).data
    (by decide)]
  rw [skip_attr (file_ext r.name).data ("\" data-repo=\"" : String).data he
    (by decide) (by decide)]
  rw [skip_attr r.repo.data ("\" data-name=\"" : String).data hr
    (by decide) (by decide)]
  rw [skip_attr (lowerS r.name).data ("\" data-path=\"" : String).data hn
    (by decide) (by decide)]
  rw [emit_attr (lowerS r.path).data (tsRender r.updated_at).data _ hp
    (tsRender_chars _).1]
  rw [skip_chunk (" data-size=\"" : String).data (by decide)]
  rw [skip_attr (natRepr r.size).data
    ("\">\n                <div class=\"file-header\">\n                    <a href=\"" : String).data
    (natRepr_clean _) (by decide) (by decide)]
  rw [skip_attr r.url.data ("\" class=\"file-name\" target=\"_blank\">" : String).data hu
    (by decide) (by decide)]
  rw [skip_text r.name.data ("</a>\n                    <span class=\"repo-badge\">" : String).data
    hnm (by decide) (by decide) (by decide)]
  rw [skip_text r.repo.data
    ("</span>\n                </div>\n                <div class=\"file-path\">" : String).data
    hr.1 (by decide) (by decide) (by decide)]
  rw [skip_text r.path.data
    ("</div>\n                <div class=\"file-meta\">\n                    <span class=\"time-ago\">⏱️ " : String).data
    hpr (by decide) (by decide) (by decide)]
  rw [skip_text (format_time_since (now - r.updated_at)).data
    ("</span>\n                    <span class=\"file-size\">📦 " : String).data
    (format_time_no_quote _) (by decide) (by decide) (by decide)]
  rw [skip_text (size_str r.size).data
    ("</span>\n                </div>\n            </li>\n" : String).data
    (size_str_no_quote _) (by decide) (by decide) (by decide)]

end MasterIndex

namespace MasterIndex

/-- The rendered entries of a benign record list yield exactly the list of
the records' timestamps, in list order. -/
theorem itemsHtml_extract (now : Int) (l : List FileInfo) (hb : ∀ r ∈ l, Benign r) :
    extractUpd (itemsHtml now l).data =
      l.map (fun r => (tsRender r.updated_at).data) := by
  induction l with
  | nil => simpa [itemsHtml] using extract_nil
  | cons r rest ih =>
    simp only [itemsHtml, String.data_append]
    rw [render_extract now r (hb r (by simp)) _]
    rw [ih (fun x hx => hb x (List.mem_cons_of_mem _ hx))]
    simp

/-- Inserting preserves membership up to permutation. -/
theorem insertFile_perm (r : FileInfo) (l : List FileInfo) :
    (insertFile r l).Perm (r :: l) := by
  induction l with
  | nil => exact List.Perm.refl _
  | cons y ys ih =>
    simp only [insertFile]
    by_cases h : r.updated_at < y.updated_at
    · rw [if_pos h]
      exact (ih.cons y).trans (List.Perm.swap r y ys)
    · rw [if_neg h]

/-- The sort is a permutation of its input (it is total: every record
appears exactly once). -/
theorem sortFilesDesc_perm (l : List FileInfo) : (sortFilesDesc l).Perm l := by
  induction l with
  | nil => exact List.Perm.refl _
  | cons x xs ih =>
    simp only [sortFilesDesc]
    exact (insertFile_perm x (sortFilesDesc xs)).trans (ih.cons x)

/-- Inserting into a descending list keeps it descending. -/
theorem insertFile_sorted (r : FileInfo) (l : List FileInfo)
    (h : l.Pairwise (fun a b => b.updated_at ≤ a.updated_at)) :
    (insertFile r l).Pairwise (fun a b => b.updated_at ≤ a.updated_at) := by
  induction l with
  | nil => simp [insertFile]
  | cons y ys ih =>
    rcases List.pairwise_cons.mp h with ⟨hy, hys⟩
    simp only [insertFile]
    by_cases hlt : r.updated_at < y.updated_at
    · rw [if_pos hlt]
      refine List.pairwise_cons.mpr ⟨?_, ih hys⟩
      intro z hz
      rcases List.mem_cons.mp ((insertFile_perm r ys).mem_iff.mp hz) with h1 | h1
      · rw [h1]; omega
      · exact hy z h1
    · rw [if_neg hlt]
      refine List.pairwise_cons.mpr ⟨?_, h⟩
      intro z hz
      rcases List.mem_cons.mp hz with h1 | h1
      · rw [h1]; omega
      · have := hy z h1
        omega

/-- The sorted list is descending in the timestamps. -/
theorem sortFilesDesc_sorted (l : List FileInfo) :
    (sortFilesDesc l).Pairwise (fun a b => b.updated_at ≤ a.updated_at) := by
  induction l with
  | nil => simp [sortFilesDesc]
  | cons x xs ih =>
    simp only [sortFilesDesc]
    exact insertFile_sorted x _ ih

/-- Filtering one timestamp class through an insertion: the inserted record
lands in front of its class (it skips only strictly larger timestamps). -/
theorem filter_insertFile (r : FileInfo) (l : List FileInfo) (t : Int) :
    (insertFile r l).filter (fun x => x.updated_at == t) =
      if r.updated_at = t then r :: l.filter (fun x => x.updated_at == t)
      else l.filter (fun x => x.updated_at == t) := by
  induction l with
  | nil =>
    by_cases hrt : r.updated_at = t
    · simp [insertFile, List.filter, hrt]
    · have hf : (r.updated_at == t) = false := by
        rw [beq_eq_false_iff_ne]
        exact hrt
      simp [insertFile, List.filter, hf, hrt]
  | cons y ys ih =>
    simp only [insertFile]
    by_cases hlt : r.updated_at < y.updated_at
    · rw [if_pos hlt]
      by_cases hrt : r.updated_at = t
      · have hyt : (y.updated_at == t) = false := by
          rw [beq_eq_false_iff_ne]
          intro heq
          omega
        simp [List.filter_cons, hyt, ih, hrt]
      · simp [List.filter_cons, ih, hrt]
    · rw [if_neg hlt]
      by_cases hrt : r.updated_at = t
      · simp [List.filter_cons, beq_iff_eq, hrt]
      · simp [List.filter_cons, beq_iff_eq, hrt]

/-- Stability: each timestamp class comes out of the sort in its original
relative order. -/
theorem sortFilesDesc_stable (l : List FileInfo) (t : Int) :
    (sortFilesDesc l).filter (fun x => x.updated_at == t) =
      l.filter (fun x => x.updated_at == t) := by
  induction l with
  | nil => rfl
  | cons x xs ih =>
    simp only [sortFilesDesc]
    rw [filter_insertFile, ih]
    by_cases hrt : x.updated_at = t
    · rw [if_pos hrt, List.filter_cons]
      simp [beq_iff_eq, hrt]
    · rw [if_neg hrt, List.filter_cons]
      simp [beq_iff_eq, hrt]

/-- C1: the sort performed before rendering is a permutation (total),
descending in the last-modified timestamp, and stable (every timestamp
class keeps its original relative order); and the rendered list embeds the
records in sorted order through the `updated` data attribute: extracting
every `data-updated` value from the rendered entries yields exactly the
sorted records' timestamps in order, for benign field values. -/
theorem c1_sorted_stable_embedding (now : Int) (fs : List FileInfo)
    (hb : ∀ r ∈ fs, Benign r) :
    (sortFilesDesc fs).Perm fs ∧
    (sortFilesDesc fs).Pairwise (fun a b => b.updated_at ≤ a.updated_at) ∧
    (∀ t : Int, (sortFilesDesc fs).filter (fun x => x.updated_at == t) =
        fs.filter (fun x => x.updated_at == t)) ∧
    extractUpd (itemsHtml now (sortFilesDesc fs)).data =
      (sortFilesDesc fs).map (fun r => (tsRender r.updated_at).data) := by
  refine ⟨sortFilesDesc_perm fs, sortFilesDesc_sorted fs,
    fun t => sortFilesDesc_stable fs t, ?_⟩
  exact itemsHtml_extract now _
    (fun r hr => hb r ((sortFilesDesc_perm fs).mem_iff.mp hr))

/-- Closed instance of `c1_sorted_stable_embedding`: records entering with
timestamps [now-1, now-3, now-2] are embedded via `data-updated` in the
order [now-1, now-2, now-3]. -/
theorem c1_sorted_stable_embedding_witness :
    extractUpd (itemsHtml 1000 (sortFilesDesc exRecords)).data =
      [("999.0" : String).data, ("998.0" : String).data, ("997.0" : String).data] := by
  have h := (c1_sorted_stable_embedding 1000 exRecords (by decide)).2.2.2
  rw [h]
  decide

end MasterIndex
